import Mathlib

set_option maxRecDepth 16384

/-!
Shallow embedding of the transcription engine in src/transcribe.ts.

The file models the dispatcher (getTranscription), the backend registry
(transcription_engines), the three backend adapters (WhisperASR one-shot
HTTP, Swiftink create-then-poll, Azure streaming session) and the segment
formatter (segmentsToTimestampedString).

External collaborators are modelled as data supplied through an Env value:
the sequence of Swiftink poll responses, the WhisperASR HTTP outcome, the
Azure SDK event stream, the date-fns format function and the JS
Date.getTimezoneOffset function.  A JS promise outcome is resolved,
rejected, or still pending.
-/

/- An Obsidian TFile; only its identity matters to this layer. -/
structure TFile where
  path : String

/- The plugin settings fields read by transcribe.ts. -/
structure TranscriptionSettings where
  transcription_engine : String
  timestamps : Bool
  timestampFormat : String
  translate : Bool
  debug : Bool
  verbosity : Int
  dev : Bool
  swiftinkToken : String
  whisperASRUrl : String
  azureKey : String
  azureRegion : String
  azureLang : String

/- schemas.TimestampedTextSegment: start and end are second floats. -/
structure TimestampedTextSegment where
  start : Rat
  «end» : Rat
  text : String
deriving DecidableEq

/- The GET /transcripts/id response body: status plus optional fields. -/
structure SwiftinkTranscript where
  status : String
  text : Option String
  text_segments : Option (List TimestampedTextSegment)
deriving DecidableEq

/- sdk.CancellationReason (the values the code distinguishes). -/
inductive CancellationReason where
  | error
  | endOfStream
deriving DecidableEq

/- The argument e of the recognizer.canceled callback. -/
structure CancellationEventArgs where
  reason : CancellationReason
  errorDetails : String
deriving DecidableEq

/- The rejection values that can travel through a promise in this file. -/
inductive JSError where
  | typeError (message : String)
  | stringReject (message : String)
  | requestError (message : String)
  | cancellationError (e : CancellationEventArgs)
deriving DecidableEq

/- Outcome of a JS promise: resolved, rejected, or never settled. -/
inductive JSOutcome (α : Type) where
  | resolved (value : α)
  | rejected (error : JSError)
  | pending
deriving DecidableEq

/- promise.then(f) with no rejection handler: rejections pass through. -/
def promiseThen {α β : Type} (p : JSOutcome α) (f : α → JSOutcome β) : JSOutcome β :=
  match p with
  | .resolved v => f v
  | .rejected e => .rejected e
  | .pending => .pending

/- sdk.ResultReason (the values the code distinguishes). -/
inductive ResultReason where
  | recognizedSpeech
  | noMatch
  | otherReason
deriving DecidableEq

/- One callback invocation from the Azure speech SDK session. -/
inductive AzureEvent where
  | recognized (reason : ResultReason) (text : String)
  | canceled (e : CancellationEventArgs)
  | sessionStopped
deriving DecidableEq

/- The WhisperASR requestUrl response: text body and json.text field. -/
structure WhisperResponse where
  text : Option String
  json_text : String
deriving DecidableEq

/- The environment: every externally supplied value the adapters consume. -/
structure Env where
  swiftinkCreate : Except JSError String
  swiftinkPolls : List SwiftinkTranscript
  whisperResponse : Except JSError WhisperResponse
  azureEvents : List AzureEvent
  dateFormat : Int → String → String
  tzOffsetMin : Int → Int

/- JS ToInteger on a millisecond value: truncation toward zero. -/
def jsToInteger (q : Rat) : Int :=
  if q < 0 then -((-q).floor) else q.floor

/- segmentsToTimestampedString from transcribe.ts, lines 33-53: the loop
   accumulates one line per segment.  dateFormat stands for the date-fns
   format import and tzOffset for Date.getTimezoneOffset of the given
   time value. -/
def segmentsToTimestampedString (dateFormat : Int → String → String) (tzOffset : Int → Int)
    (segments : List TimestampedTextSegment) (timestampFormat : String) : String :=
  segments.foldl (fun transcription segment =>
    let start := jsToInteger (segment.start * 1000)
    let endMs := jsToInteger (segment.«end» * 1000)
    let startUtc := start + tzOffset start * 60000
    let endUtc := endMs + tzOffset endMs * 60000
    let start_formatted := dateFormat startUtc timestampFormat
    let end_formatted := dateFormat endUtc timestampFormat
    transcription ++ (start_formatted ++ " - " ++ end_formatted ++ ": " ++ segment.text ++ "\n")) ""

/- The per-segment time rendering (used to state what each line holds). -/
def formatSegmentTime (dateFormat : Int → String → String) (tzOffset : Int → Int)
    (seconds : Rat) (timestampFormat : String) : String :=
  let ms := jsToInteger (seconds * 1000)
  dateFormat (ms + tzOffset ms * 60000) timestampFormat

/- getTranscriptionWhisperASR, lines 71-98: one POST; a string text body
   wins over json.text; a transport error is re-rejected unchanged by the
   catch handler. -/
def getTranscriptionWhisperASR (_S : TranscriptionSettings) (env : Env) (_file : TFile) :
    JSOutcome String :=
  match env.whisperResponse with
  | .error e => .rejected e
  | .ok response =>
    match response.text with
    | some t => .resolved t
    | none => .resolved response.json_text

/- const max_tries = 200 (line 143). -/
def max_tries : Nat := 200

/- const sleep_time = 3000 (line 144). -/
def sleep_time : Nat := 3000

/- The guard of the success branch, line 153-155: status is complete and
   both text_segments and text are present. -/
def isCompleteWithFields (t : SwiftinkTranscript) : Bool :=
  t.status == "complete" && t.text_segments.isSome && t.text.isSome

/- A status the loop treats as terminal on a pre-budget poll. -/
def isTerminal (t : SwiftinkTranscript) : Bool :=
  isCompleteWithFields t || t.status == "failed" || t.status == "validation_failed"

/- The while(true) poll loop of getTranscriptionSwiftink, lines 142-184,
   run against the list of responses the remote would return, in order.
   Returns the settled outcome together with the number of GET requests
   consumed; an exhausted response list leaves the promise pending. -/
def pollLoop (S : TranscriptionSettings) (df : Int → String → String) (tz : Int → Int) :
    List SwiftinkTranscript → Nat → JSOutcome String × Nat
  | [], _ => (.pending, 0)
  | t :: rest, tries =>
    if isCompleteWithFields t then
      ((if S.timestamps then
          .resolved (segmentsToTimestampedString df tz (t.text_segments.getD []) S.timestampFormat)
        else
          .resolved (t.text.getD "")), 1)
    else if tries > max_tries then
      (.rejected (.stringReject "Swiftink took too long to transcribe the file"), 1)
    else if t.status == "failed" then
      (.rejected (.stringReject "Swiftink failed to transcribe the file"), 1)
    else if t.status == "validation_failed" then
      (.rejected (.stringReject "Swiftink has detected an invalid file"), 1)
    else
      let r := pollLoop S df tz rest (tries + 1)
      (r.1, r.2 + 1)

/- getTranscriptionSwiftink, lines 100-185: a failed creation request
   rejects immediately; otherwise the poll loop decides the outcome. -/
def getTranscriptionSwiftink (S : TranscriptionSettings) (env : Env) (_file : TFile) :
    JSOutcome String :=
  match env.swiftinkCreate with
  | .error e => .rejected e
  | .ok _id => (pollLoop S env.dateFormat env.tzOffsetMin env.swiftinkPolls 0).1

/- JS String.prototype.trim: drop leading and trailing whitespace. -/
def jsTrim (s : String) : String :=
  String.mk (((s.data.dropWhile Char.isWhitespace).reverse.dropWhile Char.isWhitespace).reverse)

/- An observable call made by the Azure promise executor. -/
inductive AzAction where
  | resolveCall (value : String)
  | rejectCall (e : CancellationEventArgs)
  | stopCall
deriving DecidableEq

/- How the promise of getTranscriptionAzure has settled, if at all. -/
inductive AzSettle where
  | res (s : String)
  | rej (e : CancellationEventArgs)
deriving DecidableEq

/- The mutable state of the Azure promise executor: the text accumulator,
   the first settle (JS promises keep the first resolve/reject), the
   number of stopContinuousRecognitionAsync calls, and the ordered trace
   of calls made by the handlers. -/
structure AzureState where
  text : String
  settled : Option AzSettle
  stopCalls : Nat
  trace : List AzAction
deriving DecidableEq

/- resolve(v): recorded in the trace; only the first settle sticks. -/
def azResolve (st : AzureState) (v : String) : AzureState :=
  let st1 : AzureState := { st with trace := st.trace ++ [.resolveCall v] }
  if st1.settled.isSome then st1 else { st1 with settled := some (.res v) }

/- reject(e): recorded in the trace; only the first settle sticks. -/
def azReject (st : AzureState) (e : CancellationEventArgs) : AzureState :=
  let st1 : AzureState := { st with trace := st.trace ++ [.rejectCall e] }
  if st1.settled.isSome then st1 else { st1 with settled := some (.rej e) }

/- recognizer.stopContinuousRecognitionAsync(). -/
def azStop (st : AzureState) : AzureState :=
  { st with stopCalls := st.stopCalls + 1, trace := st.trace ++ [.stopCall] }

/- The three callbacks installed in lines 214-233, one SDK event at a
   time.  recognized: RecognizedSpeech appends a space and the fragment,
   NoMatch resolves the trimmed text.  canceled: an Error reason rejects
   with the event, then the session is stopped in every case.
   sessionStopped: resolve the trimmed text, then stop the session. -/
def handleAzureEvent (st : AzureState) (ev : AzureEvent) : AzureState :=
  match ev with
  | .recognized reason txt =>
    if reason == ResultReason.recognizedSpeech then
      { st with text := st.text ++ " " ++ txt }
    else if reason == ResultReason.noMatch then
      azResolve st (jsTrim st.text)
    else
      st
  | .canceled e =>
    let st1 := if e.reason == CancellationReason.error then azReject st e else st
    azStop st1
  | .sessionStopped =>
    azStop (azResolve st (jsTrim st.text))

/- The executor state before any event: empty text, unsettled promise. -/
def initialAzureState : AzureState :=
  { text := "", settled := none, stopCalls := 0, trace := [] }

/- Run the executor over the events the SDK session delivers, in order. -/
def runAzure (events : List AzureEvent) : AzureState :=
  events.foldl handleAzureEvent initialAzureState

/- getTranscriptionAzure, lines 187-237: the promise settles with the
   first resolve or reject the handlers perform, if any. -/
def getTranscriptionAzure (_S : TranscriptionSettings) (env : Env) (_file : TFile) :
    JSOutcome String :=
  match (runAzure env.azureEvents).settled with
  | some (.res s) => .resolved s
  | some (.rej e) => .rejected (.cancellationError e)
  | none => .pending

/- The type of a backend adapter, with the environment made explicit. -/
def TranscriptionBackend : Type :=
  TranscriptionSettings → Env → TFile → JSOutcome String

/- The registry literal of lines 21-25: a JS object lookup that yields
   undefined (none) for any key other than the three entries. -/
def transcription_engines (key : String) : Option TranscriptionBackend :=
  if key == "swiftink" then some getTranscriptionSwiftink
  else if key == "whisper_asr" then some getTranscriptionWhisperASR
  else if key == "azure_speech_service" then some getTranscriptionAzure
  else none

/- getTranscription, lines 60-69: look the engine up, call it, and pass
   the transcription through a then-handler that only logs.  Calling the
   undefined lookup result throws a TypeError, which the async function
   turns into a rejected promise. -/
def getTranscription (S : TranscriptionSettings) (env : Env) (file : TFile) :
    JSOutcome String :=
  match transcription_engines S.transcription_engine with
  | none => .rejected (.typeError "this.transcriptionEngine is not a function")
  | some engine => promiseThen (engine S env file) (fun transcription => .resolved transcription)

/- Whether an Azure event can settle the promise at all. -/
def settlesPromise (ev : AzureEvent) : Bool :=
  match ev with
  | .recognized reason _ => reason == ResultReason.noMatch
  | .canceled e => e.reason == CancellationReason.error
  | .sessionStopped => true

/- Sample inputs used by witnesses and counterexamples. -/
def queuedPoll : SwiftinkTranscript := ⟨"queued", none, none⟩

def failedPoll : SwiftinkTranscript := ⟨"failed", none, none⟩

def fieldlessComplete : SwiftinkTranscript := ⟨"complete", none, none⟩

def sampleFormat : Int → String → String := fun _ _ => "00:00:00"

def sampleTz : Int → Int := fun _ => 0

def mkSettings (engine : String) : TranscriptionSettings :=
  ⟨engine, false, "HH:mm:ss", false, false, 0, false, "", "", "", "", ""⟩

def mkEnv (polls : List SwiftinkTranscript) (events : List AzureEvent) : Env :=
  ⟨Except.ok "job-1", polls, Except.ok ⟨some "hi", "hi"⟩, events, sampleFormat, sampleTz⟩

def sampleFile : TFile := ⟨"recording.webm"⟩

/- Skipping a prefix of non-terminal polls only advances the try counter
   and the GET count, as long as the counter stays within the budget. -/
theorem pollLoop_append_nonterminal (S : TranscriptionSettings) (df : Int → String → String)
    (tz : Int → Int) (pre rest : List SwiftinkTranscript) (tries : Nat)
    (hnt : ∀ t ∈ pre, isTerminal t = false) (hb : tries + pre.length ≤ max_tries + 1) :
    pollLoop S df tz (pre ++ rest) tries
      = ((pollLoop S df tz rest (tries + pre.length)).1,
         (pollLoop S df tz rest (tries + pre.length)).2 + pre.length) := by
  revert hnt hb
  induction pre generalizing tries with
  | nil =>
    intro hnt hb
    simp
  | cons t pre ih =>
    intro hnt hb
    have ht := hnt t (List.mem_cons_self t pre)
    simp only [isTerminal, Bool.or_eq_false_iff] at ht
    obtain ⟨⟨h1, h2⟩, h3⟩ := ht
    have h4 : ¬ tries > max_tries := by
      simp only [List.length_cons, max_tries] at hb ⊢
      omega
    have hb2 : tries + 1 + pre.length ≤ max_tries + 1 := by
      simp only [List.length_cons] at hb
      omega
    have hnt2 : ∀ u ∈ pre, isTerminal u = false :=
      fun u hu => hnt u (List.mem_cons_of_mem t hu)
    simp only [List.cons_append, pollLoop, h1, h2, h3, Bool.false_eq_true, if_false, if_neg h4]
    simp only [List.append_eq]
    rw [ih (tries + 1) hnt2 hb2]
    have e1 : tries + 1 + pre.length = tries + (pre.length + 1) := by omega
    simp [e1, List.length_cons, Nat.add_assoc]

/-- Claim C2: for the status sequence queued, queued, complete-with-fields the
   poll loop consumes exactly 3 GET responses and resolves with the third
   poll's text, or its timestamp-formatted segments when timestamps are
   enabled; getTranscriptionSwiftink surfaces the same value. -/
theorem swiftink_three_polls_success (S : TranscriptionSettings) (df : Int → String → String)
    (tz : Int → Int) (o1 o2 : Option String) (g1 g2 : Option (List TimestampedTextSegment))
    (txt : String) (segs : List TimestampedTextSegment) (rest : List SwiftinkTranscript)
    (jid : String) (w : Except JSError WhisperResponse) (evs : List AzureEvent) (file : TFile) :
    pollLoop S df tz
        (⟨"queued", o1, g1⟩ :: ⟨"queued", o2, g2⟩ :: ⟨"complete", some txt, some segs⟩ :: rest) 0
      = ((if S.timestamps then
            JSOutcome.resolved (segmentsToTimestampedString df tz segs S.timestampFormat)
          else JSOutcome.resolved txt), 3)
    ∧ getTranscriptionSwiftink S
        ⟨Except.ok jid,
         ⟨"queued", o1, g1⟩ :: ⟨"queued", o2, g2⟩ :: ⟨"complete", some txt, some segs⟩ :: rest,
         w, evs, df, tz⟩ file
      = (if S.timestamps then
            JSOutcome.resolved (segmentsToTimestampedString df tz segs S.timestampFormat)
          else JSOutcome.resolved txt) :=
  ⟨rfl, rfl⟩

/-- Claim C3: a validation_failed status on the first poll rejects after exactly
   one GET with the validation-specific message, which differs from the
   message produced for a failed status. -/
theorem swiftink_validation_failed_first_poll (S : TranscriptionSettings)
    (df : Int → String → String) (tz : Int → Int) (o : Option String)
    (g : Option (List TimestampedTextSegment)) (rest : List SwiftinkTranscript) :
    pollLoop S df tz (⟨"validation_failed", o, g⟩ :: rest) 0
      = (.rejected (.stringReject "Swiftink has detected an invalid file"), 1)
    ∧ JSError.stringReject "Swiftink has detected an invalid file"
        ≠ JSError.stringReject "Swiftink failed to transcribe the file" :=
  ⟨rfl, by decide⟩

/-- Claim C6: the segment formatter output is the in-order concatenation of one
   line per segment of the exact shape start, a dash, end, a colon, the
   segment text and a newline. -/
theorem segment_formatter_line_per_segment (df : Int → String → String) (tz : Int → Int)
    (segments : List TimestampedTextSegment) (fmt : String) :
    segmentsToTimestampedString df tz segments fmt
      = String.join (segments.map (fun s =>
          formatSegmentTime df tz s.start fmt ++ " - " ++ formatSegmentTime df tz s.«end» fmt
            ++ ": " ++ s.text ++ "\n")) := by
  unfold segmentsToTimestampedString String.join
  rw [List.foldl_map]
  rfl

/-- Claim C5: the dispatcher resolves or rejects with exactly the value of the
   selected adapter, unmodified. -/
theorem dispatcher_passes_through (S : TranscriptionSettings) (env : Env) (file : TFile)
    (b : TranscriptionBackend) (h : transcription_engines S.transcription_engine = some b) :
    getTranscription S env file = b S env file := by
  unfold getTranscription
  rw [h]
  cases hb : b S env file <;> simp [promiseThen, hb]

/- Witness for C5 at the swiftink registry entry. -/
theorem dispatcher_passes_through_witness :
    transcription_engines (mkSettings "swiftink").transcription_engine
        = some getTranscriptionSwiftink
    ∧ getTranscription (mkSettings "swiftink") (mkEnv [] []) sampleFile
        = getTranscriptionSwiftink (mkSettings "swiftink") (mkEnv [] []) sampleFile :=
  ⟨rfl, dispatcher_passes_through (mkSettings "swiftink") (mkEnv [] []) sampleFile
      getTranscriptionSwiftink rfl⟩

/-- Claim C4 (amended): an unknown backend name makes getTranscription reject
   with the TypeError raised by invoking the undefined registry lookup. -/
theorem unknown_backend_rejects_type_error (S : TranscriptionSettings) (env : Env) (file : TFile)
    (h : transcription_engines S.transcription_engine = none) :
    getTranscription S env file
      = .rejected (.typeError "this.transcriptionEngine is not a function") := by
  unfold getTranscription
  rw [h]

/-- Claim C4 counterexample: the rejection for an unknown backend is the generic
   not-a-function TypeError, identical for two different unknown names,
   so it does not identify the unknown backend. -/
theorem unknown_backend_generic_error :
    transcription_engines "deepgram" = none
    ∧ getTranscription (mkSettings "deepgram") (mkEnv [] []) sampleFile
        = .rejected (.typeError "this.transcriptionEngine is not a function")
    ∧ getTranscription (mkSettings "deepgram") (mkEnv [] []) sampleFile
        = getTranscription (mkSettings "assemblyai") (mkEnv [] []) sampleFile :=
  ⟨rfl, rfl, rfl⟩

/- Witness for the amended C4. -/
theorem unknown_backend_rejects_type_error_witness :
    transcription_engines (mkSettings "elevenlabs").transcription_engine = none
    ∧ getTranscription (mkSettings "elevenlabs") (mkEnv [] []) sampleFile
        = .rejected (.typeError "this.transcriptionEngine is not a function") :=
  ⟨rfl, unknown_backend_rejects_type_error _ _ _ rfl⟩

/-- Claim C7: recognized speech events hello then world followed by a session
   stop resolve the Azure adapter promise to the space-joined, trimmed
   string. -/
theorem azure_hello_world_resolves (S : TranscriptionSettings) (file : TFile)
    (c : Except JSError String) (polls : List SwiftinkTranscript)
    (w : Except JSError WhisperResponse) (df : Int → String → String) (tz : Int → Int) :
    getTranscriptionAzure S
        ⟨c, polls, w,
         [.recognized .recognizedSpeech "hello", .recognized .recognizedSpeech "world",
          .sessionStopped], df, tz⟩ file
      = .resolved "hello world" := rfl

/- resolve never touches the stop counter. -/
theorem azResolve_stopCalls (st : AzureState) (v : String) :
    (azResolve st v).stopCalls = st.stopCalls := by
  by_cases h : st.settled.isSome = true <;> simp [azResolve, h]

/- reject never touches the stop counter. -/
theorem azReject_stopCalls (st : AzureState) (e : CancellationEventArgs) :
    (azReject st e).stopCalls = st.stopCalls := by
  by_cases h : st.settled.isSome = true <;> simp [azReject, h]

/- resolve appends exactly one resolve call to the trace. -/
theorem azResolve_trace (st : AzureState) (v : String) :
    (azResolve st v).trace = st.trace ++ [AzAction.resolveCall v] := by
  by_cases h : st.settled.isSome = true <;> simp [azResolve, h]

/- reject appends exactly one reject call to the trace. -/
theorem azReject_trace (st : AzureState) (e : CancellationEventArgs) :
    (azReject st e).trace = st.trace ++ [AzAction.rejectCall e] := by
  by_cases h : st.settled.isSome = true <;> simp [azReject, h]

/- An event that cannot settle the promise leaves it unsettled. -/
theorem handleAzureEvent_unsettled (st : AzureState) (ev : AzureEvent)
    (hev : settlesPromise ev = false) (hst : st.settled = none) :
    (handleAzureEvent st ev).settled = none := by
  cases ev with
  | recognized r txt =>
    simp only [settlesPromise] at hev
    cases r <;> simp_all [handleAzureEvent, azResolve]
  | canceled e =>
    simp only [settlesPromise] at hev
    simp [handleAzureEvent, hev, azStop, hst]
  | sessionStopped => simp [settlesPromise] at hev

/- A run of non-settling events leaves the promise unsettled. -/
theorem foldl_handle_unsettled (evs : List AzureEvent) :
    ∀ st : AzureState, st.settled = none → (∀ ev ∈ evs, settlesPromise ev = false) →
      (evs.foldl handleAzureEvent st).settled = none := by
  induction evs with
  | nil =>
    intro st h _
    simpa using h
  | cons ev evs ih =>
    intro st h hall
    simp only [List.foldl_cons]
    exact ih _ (handleAzureEvent_unsettled st ev (hall ev (List.mem_cons_self ev evs)) h)
      (fun u hu => hall u (List.mem_cons_of_mem ev hu))

/- No handler ever decreases the stop counter. -/
theorem handleAzureEvent_stopCalls_le (st : AzureState) (ev : AzureEvent) :
    st.stopCalls ≤ (handleAzureEvent st ev).stopCalls := by
  cases ev with
  | recognized r txt =>
    cases r <;> simp [handleAzureEvent, azResolve_stopCalls]
  | canceled e =>
    cases h : (e.reason == CancellationReason.error) <;>
      simp [handleAzureEvent, h, azStop, azReject_stopCalls]
  | sessionStopped => simp [handleAzureEvent, azStop, azResolve_stopCalls]

/- The stop counter is monotone along any event run. -/
theorem foldl_handle_stopCalls_le (evs : List AzureEvent) :
    ∀ st : AzureState, st.stopCalls ≤ (evs.foldl handleAzureEvent st).stopCalls := by
  induction evs with
  | nil =>
    intro st
    simp
  | cons ev evs ih =>
    intro st
    simp only [List.foldl_cons]
    exact le_trans (handleAzureEvent_stopCalls_le st ev) (ih _)

/-- Claim C10: a cancellation whose reason is not Error stops the session while
   invoking neither resolve nor reject, and if no later event can settle
   the promise, it stays pending forever. -/
theorem azure_nonerror_cancel_never_settles (e : CancellationEventArgs)
    (rest : List AzureEvent) (hr : e.reason ≠ CancellationReason.error)
    (hrest : ∀ ev ∈ rest, settlesPromise ev = false) :
    (handleAzureEvent initialAzureState (AzureEvent.canceled e)).trace = [AzAction.stopCall]
    ∧ (runAzure (AzureEvent.canceled e :: rest)).settled = none
    ∧ 1 ≤ (runAzure (AzureEvent.canceled e :: rest)).stopCalls := by
  have hb : (e.reason == CancellationReason.error) = false := by
    cases h : e.reason with
    | error => exact absurd h hr
    | endOfStream => rfl
  refine ⟨?_, ?_, ?_⟩
  · simp [handleAzureEvent, hb, azStop, initialAzureState]
  · simp only [runAzure, List.foldl_cons]
    exact foldl_handle_unsettled rest _
      (handleAzureEvent_unsettled initialAzureState _ (by simp [settlesPromise, hb]) rfl) hrest
  · simp only [runAzure, List.foldl_cons]
    have h1 : (handleAzureEvent initialAzureState (AzureEvent.canceled e)).stopCalls = 1 := by
      simp [handleAzureEvent, hb, azStop, initialAzureState]
    calc 1 = (handleAzureEvent initialAzureState (AzureEvent.canceled e)).stopCalls := h1.symm
      _ ≤ _ := foldl_handle_stopCalls_le rest _

/- Witness for C10 at an end-of-stream cancellation followed by one more
   recognized-speech event. -/
theorem azure_nonerror_cancel_never_settles_witness :
    (CancellationEventArgs.mk CancellationReason.endOfStream "eof").reason
        ≠ CancellationReason.error
    ∧ (∀ ev ∈ [AzureEvent.recognized ResultReason.recognizedSpeech "hi"],
        settlesPromise ev = false)
    ∧ ((handleAzureEvent initialAzureState
          (AzureEvent.canceled ⟨CancellationReason.endOfStream, "eof"⟩)).trace
        = [AzAction.stopCall]
      ∧ (runAzure (AzureEvent.canceled ⟨CancellationReason.endOfStream, "eof"⟩
            :: [AzureEvent.recognized ResultReason.recognizedSpeech "hi"])).settled = none
      ∧ 1 ≤ (runAzure (AzureEvent.canceled ⟨CancellationReason.endOfStream, "eof"⟩
            :: [AzureEvent.recognized ResultReason.recognizedSpeech "hi"])).stopCalls) :=
  ⟨by decide, by decide,
    azure_nonerror_cancel_never_settles ⟨CancellationReason.endOfStream, "eof"⟩
      [AzureEvent.recognized ResultReason.recognizedSpeech "hi"] (by decide) (by decide)⟩

/-- Claim C8 (amended): the cancellation handler always stops the session and on
   the error path issues the reject call and then the stop call; the
   session-stopped handler resolves and then stops; the no-further-speech
   resolution path leaves the stop counter untouched. -/
theorem azure_stop_on_cancel_and_session_stop (st : AzureState) (e : CancellationEventArgs) :
    (handleAzureEvent st (AzureEvent.canceled e)).stopCalls = st.stopCalls + 1
    ∧ (e.reason = CancellationReason.error →
        (handleAzureEvent st (AzureEvent.canceled e)).trace
          = st.trace ++ [AzAction.rejectCall e, AzAction.stopCall])
    ∧ (handleAzureEvent st AzureEvent.sessionStopped).stopCalls = st.stopCalls + 1
    ∧ (handleAzureEvent st AzureEvent.sessionStopped).trace
        = st.trace ++ [AzAction.resolveCall (jsTrim st.text), AzAction.stopCall]
    ∧ ∀ txt, (handleAzureEvent st (AzureEvent.recognized ResultReason.noMatch txt)).stopCalls
        = st.stopCalls := by
  refine ⟨?_, ?_, ?_, ?_, ?_⟩
  · cases h : (e.reason == CancellationReason.error) <;>
      simp [handleAzureEvent, h, azStop, azReject_stopCalls]
  · intro hr
    have hb : (e.reason == CancellationReason.error) = true := by
      rw [hr]
      rfl
    simp [handleAzureEvent, hb, azStop, azReject_trace, azReject_stopCalls]
  · simp [handleAzureEvent, azStop, azResolve_stopCalls]
  · simp [handleAzureEvent, azStop, azResolve_trace]
  · intro txt
    simp [handleAzureEvent, azResolve_stopCalls]

/- Witness for the amended C8 at an error cancellation from the initial
   state. -/
theorem azure_stop_on_cancel_and_session_stop_witness :
    (CancellationEventArgs.mk CancellationReason.error "boom").reason = CancellationReason.error
    ∧ (handleAzureEvent initialAzureState
          (AzureEvent.canceled ⟨CancellationReason.error, "boom"⟩)).trace
        = initialAzureState.trace
            ++ [AzAction.rejectCall ⟨CancellationReason.error, "boom"⟩, AzAction.stopCall] :=
  ⟨rfl, (azure_stop_on_cancel_and_session_stop initialAzureState
      ⟨CancellationReason.error, "boom"⟩).2.1 rfl⟩

/-- Claim C8 counterexample: a NoMatch recognition resolves the promise yet the
   session is never stopped on that path. -/
theorem azure_nomatch_resolves_without_stop :
    (runAzure [AzureEvent.recognized ResultReason.noMatch "x"]).settled
        = some (AzSettle.res "")
    ∧ (runAzure [AzureEvent.recognized ResultReason.noMatch "x"]).stopCalls = 0
    ∧ AzAction.stopCall ∉ (runAzure [AzureEvent.recognized ResultReason.noMatch "x"]).trace := by
  refine ⟨rfl, rfl, ?_⟩
  decide

/-- Claim C1 counterexample: a sequence that is non-terminal for the first 200
   polls and reports failed on poll 201 is rejected with the remote
   failure message, not the timeout message: the try counter is only 200
   at the 201st poll, so the failed branch still wins. -/
theorem swiftink_failed_at_poll_201_rejects_remote :
    (∀ u ∈ List.replicate max_tries queuedPoll, isTerminal u = false)
    ∧ pollLoop (mkSettings "swiftink") sampleFormat sampleTz
        (List.replicate max_tries queuedPoll ++ [failedPoll]) 0
      = (.rejected (.stringReject "Swiftink failed to transcribe the file"), max_tries + 1)
    ∧ JSError.stringReject "Swiftink failed to transcribe the file"
        ≠ JSError.stringReject "Swiftink took too long to transcribe the file" := by
  refine ⟨by decide, ?_, by decide⟩
  rw [pollLoop_append_nonterminal (mkSettings "swiftink") sampleFormat sampleTz
    (List.replicate max_tries queuedPoll) [failedPoll] 0 (by decide) (by decide)]
  decide

/-- Claim C1 (amended): after 201 non-terminal polls the try counter exceeds the
   budget, so the 202nd poll rejects with the timeout message whatever its
   status reports, as long as it is not a complete response carrying both
   fields; in particular a failed status arriving only then is reported as
   a timeout. -/
theorem swiftink_timeout_after_budget (S : TranscriptionSettings) (df : Int → String → String)
    (tz : Int → Int) (pre : List SwiftinkTranscript) (t : SwiftinkTranscript)
    (rest : List SwiftinkTranscript) (hlen : pre.length = max_tries + 1)
    (hnt : ∀ u ∈ pre, isTerminal u = false) (hc : isCompleteWithFields t = false) :
    pollLoop S df tz (pre ++ t :: rest) 0
      = (.rejected (.stringReject "Swiftink took too long to transcribe the file"),
         max_tries + 2) := by
  rw [pollLoop_append_nonterminal S df tz pre (t :: rest) 0 hnt (by omega)]
  simp only [hlen, Nat.zero_add]
  have hone : pollLoop S df tz (t :: rest) (max_tries + 1)
      = (.rejected (.stringReject "Swiftink took too long to transcribe the file"), 1) := by
    simp [pollLoop, hc, Nat.lt_succ_self]
  rw [hone]
  decide

/- Witness for the amended C1: 201 queued polls followed by a failed
   status reject with the timeout message. -/
theorem swiftink_timeout_after_budget_witness :
    (List.replicate (max_tries + 1) queuedPoll).length = max_tries + 1
    ∧ (∀ u ∈ List.replicate (max_tries + 1) queuedPoll, isTerminal u = false)
    ∧ isCompleteWithFields failedPoll = false
    ∧ pollLoop (mkSettings "swiftink") sampleFormat sampleTz
        (List.replicate (max_tries + 1) queuedPoll ++ failedPoll :: []) 0
      = (.rejected (.stringReject "Swiftink took too long to transcribe the file"),
         max_tries + 2) :=
  ⟨by simp, by decide, rfl,
    swiftink_timeout_after_budget (mkSettings "swiftink") sampleFormat sampleTz
      (List.replicate (max_tries + 1) queuedPoll) failedPoll [] (by simp) (by decide) rfl⟩

/-- Claim C9: a complete status missing text or text_segments is not terminal:
   within the budget the loop consumes the poll, bumps the try counter and
   keeps polling, and a persistently field-less complete sequence exhausts
   the budget and rejects with the timeout message. -/
theorem swiftink_fieldless_complete_not_terminal (S : TranscriptionSettings)
    (df : Int → String → String) (tz : Int → Int) (t : SwiftinkTranscript)
    (rest : List SwiftinkTranscript) (tries : Nat) (hs : t.status = "complete")
    (hf : t.text = none ∨ t.text_segments = none) (htries : tries ≤ max_tries) :
    pollLoop S df tz (t :: rest) tries
      = ((pollLoop S df tz rest (tries + 1)).1, (pollLoop S df tz rest (tries + 1)).2 + 1)
    ∧ pollLoop S df tz (List.replicate (max_tries + 2) t) 0
      = (.rejected (.stringReject "Swiftink took too long to transcribe the file"),
         max_tries + 2) := by
  have hc : isCompleteWithFields t = false := by
    rcases hf with hf | hf <;> simp [isCompleteWithFields, hf]
  have hfail : (t.status == "failed") = false := by
    rw [hs]
    rfl
  have hval : (t.status == "validation_failed") = false := by
    rw [hs]
    rfl
  have hnotgt : ¬ tries > max_tries := Nat.not_lt.mpr htries
  constructor
  · simp [pollLoop, hc, hfail, hval, hnotgt]
  · have hnt : ∀ u ∈ List.replicate (max_tries + 1) t, isTerminal u = false := by
      intro u hu
      rw [List.eq_of_mem_replicate hu]
      simp [isTerminal, hc, hfail, hval]
    have hrep : List.replicate (max_tries + 2) t
        = List.replicate (max_tries + 1) t ++ t :: [] := by
      rw [← List.replicate_succ']
    rw [hrep, pollLoop_append_nonterminal S df tz _ _ 0 hnt (by simp)]
    have hone : pollLoop S df tz (t :: []) (0 + (List.replicate (max_tries + 1) t).length)
        = (.rejected (.stringReject "Swiftink took too long to transcribe the file"), 1) := by
      simp [pollLoop, hc, Nat.lt_succ_self]
    rw [hone]
    simp only [List.length_replicate]
    decide

/- Witness for C9 at a complete poll that carries neither field. -/
theorem swiftink_fieldless_complete_not_terminal_witness :
    fieldlessComplete.status = "complete"
    ∧ (fieldlessComplete.text = none ∨ fieldlessComplete.text_segments = none)
    ∧ (0 : Nat) ≤ max_tries
    ∧ (pollLoop (mkSettings "swiftink") sampleFormat sampleTz (fieldlessComplete :: []) 0
        = ((pollLoop (mkSettings "swiftink") sampleFormat sampleTz [] (0 + 1)).1,
           (pollLoop (mkSettings "swiftink") sampleFormat sampleTz [] (0 + 1)).2 + 1)
      ∧ pollLoop (mkSettings "swiftink") sampleFormat sampleTz
          (List.replicate (max_tries + 2) fieldlessComplete) 0
        = (.rejected (.stringReject "Swiftink took too long to transcribe the file"),
           max_tries + 2)) :=
  ⟨rfl, Or.inl rfl, by decide,
    swiftink_fieldless_complete_not_terminal (mkSettings "swiftink") sampleFormat sampleTz
      fieldlessComplete [] 0 rfl (Or.inl rfl) (by decide)⟩
